import Mathlib

/-
Verification of the reactive data-fetch and rendering pipeline of the
telemetry dashboard (src/dash_app.py and src/dash_app_enhanced.py).

The embedding models:
  * the Query Catalog (class DataQueries): each builder becomes a Lean
    function producing a QueryDef that records the query name and the
    parameters interpolated into the SQL text (daysBack, limit); the
    SQL text itself is executed by the external Analytic Store Client,
    modelled as a function from QueryDef to a result or an error;
  * sql_query (dash_app_enhanced.py, lines 462-479): catches any failure
    of a single query and degrades it to an empty table;
  * the fetch orchestrator callbacks fetch_telemetry_data
    (dash_app_enhanced.py, lines 1478-1533) and fetch_data
    (dash_app.py, lines 493-527) as pure functions of the trigger, the
    filter inputs and the prior store, returning the new store together
    with the list of queries issued to the client;
  * the per-row semantics of the growth-percentage expressions of
    DataQueries.get_kpi_summary and of the user_segment CASE expression
    of DataQueries.get_user_segmentation;
  * the rendering transforms update_kpi_cards, update_dau_chart,
    update_usage_heatmap and update_user_segmentation_table of
    dash_app_enhanced.py, including the pandas pivot of the heatmap.

Row contents that no claim inspects are abstracted to opaque integers;
rows whose fields a transform reads (heatmap source rows) are embedded
as structures with those fields.
-/

namespace Telemetry

/-- A table of result rows. The orchestrator and the error-handling
policy never inspect row contents, so a row is abstracted to an opaque
integer; the empty list is the empty table a failed query degrades to. -/
abbrev Table := List Int

/-- A parameterized query definition from the Query Catalog: the name of
the query family together with the parameters interpolated into its SQL
text. The limit field is 0 for query families whose SQL has no LIMIT
clause. -/
structure QueryDef where
  name : String
  daysBack : Nat
  lim : Nat
deriving DecidableEq, Repr

/-- The two failure kinds of the Analytic Store Client taxonomy. -/
inductive QErr
  | connectionError
  | queryError
deriving DecidableEq, Repr

/-- The external Analytic Store Client: executes a query definition and
returns rows or fails. -/
abbrev QueryClient := QueryDef → Except QErr Table

/-- Embeds sql_query of dash_app_enhanced.py (lines 462-479): execute a
query; any exception is caught at this single-query boundary and the
query degrades to an empty table. -/
def sql_query (client : QueryClient) (q : QueryDef) : Table :=
  match client q with
  | Except.ok t => t
  | Except.error _ => []

/-- Embeds DataQueries.get_kpi_summary (dash_app_enhanced.py, line 516):
KPI aggregates over the current window of days_back days and the
matching prior window. -/
def get_kpi_summary (days_back : Nat) : QueryDef :=
  { name := "kpi_summary", daysBack := days_back, lim := 0 }

/-- Embeds DataQueries.get_dau_trend (line 552): one row per calendar
day in range. -/
def get_dau_trend (days_back : Nat) : QueryDef :=
  { name := "dau_trend", daysBack := days_back, lim := 0 }

/-- Embeds DataQueries.get_top_apps (line 568): top-N apps by click
count, LIMIT lim. -/
def get_top_apps (days_back lim : Nat) : QueryDef :=
  { name := "top_apps", daysBack := days_back, lim := lim }

/-- Embeds DataQueries.get_usage_heatmap (line 586): rows keyed by
(day_name, hour_of_day). -/
def get_usage_heatmap (days_back : Nat) : QueryDef :=
  { name := "usage_heatmap", daysBack := days_back, lim := 0 }

/-- Embeds DataQueries.get_user_cohorts (line 610). -/
def get_user_cohorts (days_back : Nat) : QueryDef :=
  { name := "user_cohorts", daysBack := days_back, lim := 0 }

/-- Embeds DataQueries.get_error_monitoring (line 636). -/
def get_error_monitoring (days_back : Nat) : QueryDef :=
  { name := "error_monitoring", daysBack := days_back, lim := 0 }

/-- Embeds DataQueries.get_user_segmentation (line 653), LIMIT lim. -/
def get_user_segmentation (days_back lim : Nat) : QueryDef :=
  { name := "user_segmentation", daysBack := days_back, lim := lim }

/-- The four trigger sources of the fetch callbacks: the interval timer,
the manual refresh button, the date-range dropdown and the tab bar. -/
inductive Trigger
  | interval_component
  | refresh_button
  | date_range_dropdown
  | main_tabs
deriving DecidableEq, Repr

/-- The Data Store written by the fetch callbacks: the kpi-data-store
holds the first record of the KPI query result (none models the empty
dict written when the result has no rows, and the initial empty store),
and the charts-data-store holds the named member tables of the
apps-usage dataset group. -/
structure Store where
  kpi : Option Int
  charts : List (String × Table)
deriving DecidableEq, Repr

/-- The member queries a completed apps-usage group fetch of
dash_app_enhanced.py issues, in execution order: the KPI query first,
then the six chart queries. dau_trend is issued with
min(days_back * 3, 90) (line 1519); every other query receives
days_back unchanged; top_apps uses its default LIMIT 10 and
user_segmentation its default LIMIT 100. -/
def issuedQueries (d : Nat) : List QueryDef :=
  [get_kpi_summary d, get_dau_trend (min (d * 3) 90), get_top_apps d 10,
   get_usage_heatmap d, get_user_cohorts d, get_error_monitoring d,
   get_user_segmentation d 100]

/-- The store a completed apps-usage group fetch of
dash_app_enhanced.py writes: the first KPI record and the dict of the
six member tables, each obtained through the degrading sql_query
boundary. -/
def freshStore (client : QueryClient) (d : Nat) : Store :=
  { kpi := (sql_query client (get_kpi_summary d)).head?,
    charts :=
      [("dau_trend", sql_query client (get_dau_trend (min (d * 3) 90))),
       ("top_apps", sql_query client (get_top_apps d 10)),
       ("usage_heatmap", sql_query client (get_usage_heatmap d)),
       ("user_cohorts", sql_query client (get_user_cohorts d)),
       ("error_monitoring", sql_query client (get_error_monitoring d)),
       ("user_segmentation", sql_query client (get_user_segmentation d 100))] }

/-- Embeds the callback fetch_telemetry_data of dash_app_enhanced.py
(lines 1478-1533). trigger is none on the initial invocation where
ctx.triggered is empty. Returns the new pair of data-store values
together with the list of queries issued to the client; returning the
prior store with an empty query list models the dash.no_update path.
days_back is none when the dropdown reports no value, in which case the
callback defaults it to 30 (line 1506). The outer try block only
catches exceptions that sql_query cannot raise, so its handler is dead
under this model. -/
def fetch_telemetry_data (client : QueryClient) (trigger : Option Trigger)
    (days_back : Option Nat) (active_tab : String) (auto_refresh : Bool)
    (store : Store) : Store × List QueryDef :=
  if trigger = some Trigger.interval_component ∧ auto_refresh = false then
    (store, [])
  else if trigger = some Trigger.main_tabs ∧ active_tab ≠ "tab-apps-usage" then
    (store, [])
  else
    let d := days_back.getD 30
    (freshStore client d, issuedQueries d)

/-- Embeds the callback fetch_data of dash_app.py (lines 493-527). It
has no tab input; when ctx.triggered is empty it writes empty dicts to
both stores; a timer tick with auto-refresh off is a no_update; every
other trigger fetches all seven queries with the same days_back. -/
def fetch_data (client : QueryClient) (trigger : Option Trigger)
    (days_back : Nat) (auto_refresh : Bool) (store : Store) :
    Store × List QueryDef :=
  match trigger with
  | none => ({ kpi := none, charts := [] }, [])
  | some t =>
    if t = Trigger.interval_component ∧ auto_refresh = false then
      (store, [])
    else
      ({ kpi := (sql_query client (get_kpi_summary days_back)).head?,
         charts :=
           [("dau_trend", sql_query client (get_dau_trend days_back)),
            ("top_apps", sql_query client (get_top_apps days_back 10)),
            ("usage_heatmap", sql_query client (get_usage_heatmap days_back)),
            ("user_cohorts", sql_query client (get_user_cohorts days_back)),
            ("error_monitoring", sql_query client (get_error_monitoring days_back)),
            ("user_segmentation", sql_query client (get_user_segmentation days_back 100))] },
       [get_kpi_summary days_back, get_dau_trend days_back,
        get_top_apps days_back 10, get_usage_heatmap days_back,
        get_user_cohorts days_back, get_error_monitoring days_back,
        get_user_segmentation days_back 100])

/-- A client that fails with a QueryError exactly on the queries selected
by bad and returns the rows given by good on every other query; used to
state the per-query degradation policy. -/
def faultyClient (good : QueryDef → Table) (bad : QueryDef → Bool) : QueryClient :=
  fun q => if bad q then Except.error QErr.queryError else Except.ok (good q)

/-- Rounds a rational to 1 decimal place with ties away from zero,
modelling the SQL function ROUND(x, 1) applied to the growth
expressions of get_kpi_summary. -/
def round1 (q : ℚ) : ℚ :=
  if q < 0 then -((Rat.floor (10 * (-q) + 1 / 2) : ℚ) / 10)
  else (Rat.floor (10 * q + 1 / 2) : ℚ) / 10

/-- Per-row semantics of the growth-percentage expressions of
DataQueries.get_kpi_summary (dash_app_enhanced.py, lines 546-547):
ROUND((cur - prev) * 100.0 / NULLIF(prev, 0), 1). NULLIF makes the
divisor NULL when prev = 0, so the whole expression is NULL (none).
The SQL text depends on days_back only through the two window bounds;
the growth expression itself is the same for every days_back, which the
unused first argument records. -/
def kpi_growth_pct (_days_back : Nat) (prev cur : ℤ) : Option ℚ :=
  if prev = 0 then none
  else some (round1 (((cur : ℚ) - (prev : ℚ)) * 100 / (prev : ℚ)))

/-- Growth percentage as the spec words it: round((current - previous)
/ previous * 100, 1), null when previous = 0. Stated from the spec for
comparison with kpi_growth_pct. -/
def spec_growth_pct (prev cur : ℤ) : Option ℚ :=
  if prev = 0 then none
  else some (round1 (((cur : ℚ) - (prev : ℚ)) / (prev : ℚ) * 100))

/-- Per-row semantics of the user_segment CASE expression of
DataQueries.get_user_segmentation (dash_app_enhanced.py, lines 663-668
and dash_app.py, lines 231-236): branches evaluated in order, first
match wins. -/
def user_segment (total_clicks : Nat) : String :=
  if total_clicks ≥ 100 then "Power User"
  else if total_clicks ≥ 50 then "Active User"
  else if total_clicks ≥ 10 then "Regular User"
  else "Casual User"

/-- A source row of the usage-heatmap query: the fields the heatmap
transform reads. In the source each row also carries day_of_week, which
the transform ignores. -/
structure HeatRow where
  day_name : String
  hour_of_day : Nat
  click_count : Nat
deriving DecidableEq, Repr

/-- The canonical week ordering used by update_usage_heatmap
(dash_app_enhanced.py, line 1707). -/
def day_order : List String :=
  ["Monday", "Tuesday", "Wednesday", "Thursday", "Friday", "Saturday",
   "Sunday"]

/-- Tests whether a heatmap row carries the pivot key (d, h). -/
def heatKeyIs (d : String) (h : Nat) (r : HeatRow) : Bool :=
  r.day_name == d && r.hour_of_day == h

/-- A cell of the pivoted heatmap after fillna(0): the click count of
the first source row keyed (d, h), or 0 when no such row exists. The
SQL groups by the key, so keys are distinct and the first match is the
only one. -/
def heatCell (rows : List HeatRow) (d : String) (h : Nat) : Nat :=
  match rows.find? (heatKeyIs d h) with
  | some r => r.click_count
  | none => 0

/-- The row index of the pivoted heatmap after the reindex of line
1708: the day names of day_order that occur in the source, in day_order
order. Day names outside day_order are dropped by the reindex. -/
def heatDays (rows : List HeatRow) : List String :=
  day_order.filter (fun d => rows.any (fun r => r.day_name == d))

/-- The column index of the pivoted heatmap: the distinct hour_of_day
values occurring in the source, ascending. pandas pivot sorts the
distinct column values; SQL HOUR values lie in 0..23, so filtering
List.range 24 enumerates exactly the distinct present hours in
ascending order. -/
def heatHours (rows : List HeatRow) : List Nat :=
  (List.range 24).filter (fun h => rows.any (fun r => r.hour_of_day == h))

/-- Embeds the pivot stage of update_usage_heatmap
(dash_app_enhanced.py, lines 1704-1708): pivot on
(day_name, hour_of_day) with values click_count, fillna(0), then
reindex the rows to the present days in canonical week order. The
matrix spans only the day names and hours present in the source, not a
fixed 7 by 24 grid. -/
def heatmapMatrix (rows : List HeatRow) : List (List Nat) :=
  (heatDays rows).map (fun d => (heatHours rows).map (fun h => heatCell rows d h))

/-- A heatmap cell as the spec describes it: the total click count of
the source rows keyed (d, h), zero when absent. Stated from the spec
for comparison with heatCell. -/
def specHeatCell (rows : List HeatRow) (d : String) (h : Nat) : Nat :=
  ((rows.filter (heatKeyIs d h)).map (fun r => r.click_count)).sum

/-- Looks a key up in a store dict modelled as an association list. -/
def lookupKey {α : Type} (k : String) (m : List (String × α)) : Option α :=
  (m.find? (fun p => p.1 == k)).map (fun p => p.2)

/-- Output of update_kpi_cards: either the four loading placeholder
cards or the four cards rendered from the KPI record. -/
inductive KpiCards
  | loadingCards
  | cards (record : Int)
deriving DecidableEq, Repr

/-- Embeds update_kpi_cards (dash_app_enhanced.py, lines 1547-1585):
a falsy kpi-data-store value (None or the empty dict, both modelled as
none) yields the loading placeholder cards; otherwise the cards are
rendered from the record. -/
def update_kpi_cards (kpi_data : Option Int) : KpiCards :=
  match kpi_data with
  | none => KpiCards.loadingCards
  | some record => KpiCards.cards record

/-- Output of a figure-producing chart callback: the empty go.Figure
placeholder or a figure rendered from the rows it received. -/
inductive ChartFig
  | emptyFigure
  | figureOf (rows : Table)
deriving DecidableEq, Repr

/-- Embeds the guard structure of update_dau_chart
(dash_app_enhanced.py, lines 1596-1603): a falsy store, a store missing
the dau_trend key, or an empty row list all yield the empty figure. -/
def update_dau_chart (charts_data : Option (List (String × Table))) : ChartFig :=
  match charts_data with
  | none => ChartFig.emptyFigure
  | some m =>
    if m.isEmpty then ChartFig.emptyFigure
    else
      match lookupKey "dau_trend" m with
      | none => ChartFig.emptyFigure
      | some rows =>
        if rows.isEmpty then ChartFig.emptyFigure
        else ChartFig.figureOf rows

/-- Output of update_usage_heatmap: the empty figure placeholder or a
heatmap figure whose z values are the pivoted matrix. -/
inductive HeatFig
  | emptyFigure
  | heatmapOf (z : List (List Nat))
deriving DecidableEq, Repr

/-- Embeds update_usage_heatmap (dash_app_enhanced.py, lines
1694-1730): the same guards as the other chart callbacks, then the
pivot of heatmapMatrix. Its store models the charts dict restricted to
the typed heatmap rows the callback reads. -/
def update_usage_heatmap
    (charts_data : Option (List (String × List HeatRow))) : HeatFig :=
  match charts_data with
  | none => HeatFig.emptyFigure
  | some m =>
    if m.isEmpty then HeatFig.emptyFigure
    else
      match lookupKey "usage_heatmap" m with
      | none => HeatFig.emptyFigure
      | some rows =>
        if rows.isEmpty then HeatFig.emptyFigure
        else HeatFig.heatmapOf (heatmapMatrix rows)

/-- Output of update_user_segmentation_table: the No data available
placeholder element or a table of the rendered rows. -/
inductive SegTable
  | noDataAvailable
  | tableOf (rows : Table)
deriving DecidableEq, Repr

/-- Embeds update_user_segmentation_table (dash_app_enhanced.py, lines
1862-1905): the placeholder on a falsy store, a missing key or an empty
row list; otherwise a table of the first 20 rows (df.head(20), line
1901). -/
def update_user_segmentation_table
    (charts_data : Option (List (String × Table))) : SegTable :=
  match charts_data with
  | none => SegTable.noDataAvailable
  | some m =>
    if m.isEmpty then SegTable.noDataAvailable
    else
      match lookupKey "user_segmentation" m with
      | none => SegTable.noDataAvailable
      | some rows =>
        if rows.isEmpty then SegTable.noDataAvailable
        else SegTable.tableOf (rows.take 20)

/-- A store value is degenerate for a chart key when it is None, the
empty dict, a dict without that key, or a dict mapping the key to an
empty row list. These are the store shapes the rendering callbacks must
survive. -/
def degenerateFor {β : Type} (key : String)
    (s : Option (List (String × List β))) : Prop :=
  s = none ∨ s = some [] ∨
    ∃ m, s = some m ∧ (lookupKey key m = none ∨ lookupKey key m = some [])

/-- A concrete client returning a fixed one-row table on every query;
used for concrete evaluations. -/
def okClient : QueryClient :=
  fun _ => Except.ok [1]

/-- The degrading single-query boundary over a faulty client: a query
selected by bad degrades to the empty table, every other query returns
its rows. -/
theorem sql_query_faultyClient (good : QueryDef → Table)
    (bad : QueryDef → Bool) (q : QueryDef) :
    sql_query (faultyClient good bad) q = if bad q then [] else good q := by
  by_cases h : bad q <;> simp [sql_query, faultyClient, h]

/-- With pairwise-distinct pivot keys, the first-match cell of the
pivot equals the total click count of the rows with that key. -/
theorem heatCell_eq_specHeatCell (d : String) (hr : Nat) :
    ∀ rows : List HeatRow,
      (rows.map (fun r => (r.day_name, r.hour_of_day))).Nodup →
      heatCell rows d hr = specHeatCell rows d hr := by
  intro rows
  induction rows with
  | nil => intro _; rfl
  | cons r rs ih =>
    intro hnd
    rw [List.map_cons, List.nodup_cons] at hnd
    by_cases hk : heatKeyIs d hr r
    · have hdh : r.day_name = d ∧ r.hour_of_day = hr := by
        simpa [heatKeyIs] using hk
      have hnone : rs.filter (heatKeyIs d hr) = [] := by
        rw [List.filter_eq_nil_iff]
        intro a ha hka
        have hadh : a.day_name = d ∧ a.hour_of_day = hr := by
          simpa [heatKeyIs] using hka
        exact hnd.1 (List.mem_map.mpr
          ⟨a, ha, by rw [hadh.1, hadh.2, hdh.1, hdh.2]⟩)
      simp [heatCell, specHeatCell, List.find?_cons, List.filter_cons, hk,
        hnone]
    · have hstep : heatCell (r :: rs) d hr = heatCell rs d hr := by
        simp [heatCell, List.find?_cons, hk]
      have hstep2 : specHeatCell (r :: rs) d hr = specHeatCell rs d hr := by
        simp [specHeatCell, List.filter_cons, hk]
      rw [hstep, hstep2]
      exact ih hnd.2

/-- Claim C1: a timer tick that arrives while auto-refresh is disabled
issues zero queries to the Analytic Store Client and leaves both the
KPI store and the charts store exactly equal to their pre-tick values,
in both fetch_telemetry_data (dash_app_enhanced.py) and fetch_data
(dash_app.py). -/
theorem c1_timer_tick_hard_skip (client client2 : QueryClient)
    (days_back : Option Nat) (active_tab : String) (store : Store)
    (d2 : Nat) (store2 : Store) :
    fetch_telemetry_data client (some Trigger.interval_component)
        days_back active_tab false store = (store, []) ∧
    fetch_data client2 (some Trigger.interval_component) d2 false store2
      = (store2, []) := by
  constructor
  · simp [fetch_telemetry_data]
  · simp [fetch_data]

/-- Claim C3: a manual-refresh signal and a date-range-change signal
each issue the full fetch of the apps-usage dataset group, for every
auto-refresh setting, every active tab and every prior store value (in
particular when the group is already present under the current filter
values), in both fetch_telemetry_data and fetch_data. -/
theorem c3_manual_and_daterange_force_fetch (client : QueryClient)
    (d : Nat) (tab : String) (auto : Bool) (store : Store) :
    fetch_telemetry_data client (some Trigger.refresh_button) (some d)
        tab auto store = (freshStore client d, issuedQueries d) ∧
    fetch_telemetry_data client (some Trigger.date_range_dropdown)
        (some d) tab auto store = (freshStore client d, issuedQueries d) ∧
    issuedQueries d ≠ [] ∧
    (issuedQueries d).length = 7 ∧
    (fetch_data client (some Trigger.refresh_button) d auto store).2.length
      = 7 ∧
    (fetch_data client (some Trigger.date_range_dropdown) d auto
        store).2.length = 7 := by
  refine ⟨?_, ?_, by simp [issuedQueries], by simp [issuedQueries], ?_, ?_⟩
  · simp [fetch_telemetry_data]
  · simp [fetch_telemetry_data]
  · simp [fetch_data]
  · simp [fetch_data]

/-- Claim C4 counterexample: the prior store passed here is exactly the
bundle a fetch under the current filter values (daysBack 30, apps-usage
tab) produces, so the target tab's group is present and current; yet
the tab-switch signal to the apps-usage tab still issues a non-empty
query list instead of skipping, refuting the claimed skip-when-fresh
behavior. -/
theorem c4_tab_switch_counterexample :
    (fetch_telemetry_data okClient (some Trigger.main_tabs) (some 30)
        "tab-apps-usage" true
        (fetch_telemetry_data okClient (some Trigger.date_range_dropdown)
          (some 30) "tab-apps-usage" true
          { kpi := none, charts := [] }).1).2 ≠ [] := by
  decide

/-- Claim C4 (amended): on a tab-switch signal the orchestrator skips
the fetch exactly when the target tab is not the apps-usage tab; a
switch to the apps-usage tab always refetches the whole group,
regardless of whether it is already present under the current filter
values. -/
theorem c4_tab_switch_amended (client : QueryClient) (d : Nat)
    (tab : String) (auto : Bool) (store : Store) :
    fetch_telemetry_data client (some Trigger.main_tabs) (some d) tab
        auto store =
      if tab = "tab-apps-usage" then (freshStore client d, issuedQueries d)
      else (store, []) := by
  by_cases h : tab = "tab-apps-usage" <;>
    simp [fetch_telemetry_data, h]

/-- Claim C5: for every daysBack in the enumerated set, the KPI growth
percentage is none exactly when the prior-period count is 0, and
otherwise equals round((current - previous) / previous * 100, 1); the
code expression agrees with the spec formula everywhere. -/
theorem c5_kpi_growth (d : Nat) (_hd : d ∈ [7, 30, 90, 180])
    (prev cur : ℤ) :
    (prev = 0 → kpi_growth_pct d prev cur = none) ∧
    (prev ≠ 0 → kpi_growth_pct d prev cur =
      some (round1 (((cur : ℚ) - (prev : ℚ)) / (prev : ℚ) * 100))) ∧
    kpi_growth_pct d prev cur = spec_growth_pct prev cur := by
  have harg : ((cur : ℚ) - (prev : ℚ)) * 100 / (prev : ℚ)
      = ((cur : ℚ) - (prev : ℚ)) / (prev : ℚ) * 100 := by
    ring
  refine ⟨fun h => by simp [kpi_growth_pct, h], fun h => ?_, ?_⟩
  · simp [kpi_growth_pct, h, harg]
  · by_cases h : prev = 0
    · simp [kpi_growth_pct, spec_growth_pct, h]
    · simp [kpi_growth_pct, spec_growth_pct, h, harg]

/-- Claim C5 witness: instantiation at daysBack 7, previous count 4,
current count 5. -/
theorem c5_kpi_growth_witness :
    kpi_growth_pct 7 4 5 =
      some (round1 (((5 : ℚ) - (4 : ℚ)) / (4 : ℚ) * 100)) :=
  (c5_kpi_growth 7 (by decide) 4 5).2.1 (by decide)

/-- Claim C6 counterexample: given source rows covering only Monday at
hour 9 with count 5, the pivot of update_usage_heatmap produces the
1 by 1 matrix [[5]], not a 7 by 24 matrix with 167 zero cells: the
transform spans only the day names and hours present in the source. -/
theorem c6_heatmap_counterexample :
    heatmapMatrix [⟨"Monday", 9, 5⟩] = [[5]] ∧
    (heatmapMatrix [⟨"Monday", 9, 5⟩]).length ≠ 7 := by
  constructor
  · decide
  · decide

/-- Claim C6 (amended): for source rows with pairwise-distinct
(day_name, hour_of_day) keys, the heatmap transform produces the matrix
whose rows are the source's day names in canonical Monday..Sunday
order, whose columns are the source's hours ascending, and whose every
cell carries the click count of its key, zero when that (day, hour)
pair is absent from the source; the input covering only Monday 9:00
with count 5 yields the 1 by 1 matrix [[5]]. -/
theorem c6_heatmap_amended (rows : List HeatRow)
    (hnd : (rows.map (fun r => (r.day_name, r.hour_of_day))).Nodup) :
    heatmapMatrix rows =
      (heatDays rows).map (fun d =>
        (heatHours rows).map (fun hr => specHeatCell rows d hr)) ∧
    heatmapMatrix [⟨"Monday", 9, 5⟩] = [[5]] := by
  refine ⟨?_, by decide⟩
  unfold heatmapMatrix
  refine List.map_congr_left (fun d _ => ?_)
  refine List.map_congr_left (fun hr _ => ?_)
  exact heatCell_eq_specHeatCell d hr rows hnd

/-- Claim C6 witness: instantiation at a two-row source covering
Monday 9:00 with count 5 and Tuesday 10:00 with count 3. -/
theorem c6_heatmap_amended_witness :
    heatmapMatrix [⟨"Monday", 9, 5⟩, ⟨"Tuesday", 10, 3⟩] =
      (heatDays [⟨"Monday", 9, 5⟩, ⟨"Tuesday", 10, 3⟩]).map (fun d =>
        (heatHours [⟨"Monday", 9, 5⟩, ⟨"Tuesday", 10, 3⟩]).map (fun hr =>
          specHeatCell [⟨"Monday", 9, 5⟩, ⟨"Tuesday", 10, 3⟩] d hr)) ∧
    heatmapMatrix [⟨"Monday", 9, 5⟩] = [[5]] :=
  c6_heatmap_amended [⟨"Monday", 9, 5⟩, ⟨"Tuesday", 10, 3⟩] (by decide)

/-- Claim C7: user segmentation classifies by total click count through
four ordered non-overlapping bands with inclusive lower bounds,
evaluated highest first: at least 100 is the Power segment, 50 to 99 is
Active, 10 to 49 is Regular, below 10 is Casual; in particular 100
clicks classify as Power and 99 as Active. -/
theorem c7_segmentation_bands (c : Nat) :
    (100 ≤ c → user_segment c = "Power User") ∧
    (50 ≤ c ∧ c < 100 → user_segment c = "Active User") ∧
    (10 ≤ c ∧ c < 50 → user_segment c = "Regular User") ∧
    (c < 10 → user_segment c = "Casual User") ∧
    user_segment 100 = "Power User" ∧
    user_segment 99 = "Active User" := by
  refine ⟨?_, ?_, ?_, ?_, by decide, by decide⟩ <;>
    · intro h
      unfold user_segment
      split_ifs <;> first | rfl | omega

/-- Claim C7 witness: instantiation at the band boundaries 100 and 99. -/
theorem c7_segmentation_bands_witness :
    user_segment 100 = "Power User" ∧ user_segment 99 = "Active User" :=
  ⟨(c7_segmentation_bands 100).1 (by decide),
   (c7_segmentation_bands 99).2.1 ⟨by decide, by decide⟩⟩

/-- Claim C8: both failure kinds of a single member query degrade to an
empty table at that query's boundary; for an arbitrary fault pattern
over the group, the fetch still executes every sibling query, and the
resulting store carries, for each named dataset independently, its own
rows or the empty table — the group fetch always completes with a
well-defined (possibly all-empty) bundle of the full seven queries. -/
theorem c8_query_failure_degrades (good : QueryDef → Table)
    (bad : QueryDef → Bool) (d : Nat) (tab : String) (auto : Bool)
    (store : Store) (q : QueryDef) :
    sql_query (fun _ => Except.error QErr.connectionError) q = [] ∧
    sql_query (fun _ => Except.error QErr.queryError) q = [] ∧
    (fetch_telemetry_data (faultyClient good bad)
        (some Trigger.refresh_button) (some d) tab auto store).1 =
      { kpi := (if bad (get_kpi_summary d) then ([] : Table)
                else good (get_kpi_summary d)).head?,
        charts :=
          [("dau_trend",
            if bad (get_dau_trend (min (d * 3) 90)) then []
            else good (get_dau_trend (min (d * 3) 90))),
           ("top_apps",
            if bad (get_top_apps d 10) then [] else good (get_top_apps d 10)),
           ("usage_heatmap",
            if bad (get_usage_heatmap d) then []
            else good (get_usage_heatmap d)),
           ("user_cohorts",
            if bad (get_user_cohorts d) then []
            else good (get_user_cohorts d)),
           ("error_monitoring",
            if bad (get_error_monitoring d) then []
            else good (get_error_monitoring d)),
           ("user_segmentation",
            if bad (get_user_segmentation d 100) then []
            else good (get_user_segmentation d 100))] } ∧
    (fetch_telemetry_data (faultyClient good bad)
        (some Trigger.refresh_button) (some d) tab auto store).2.length
      = 7 := by
  refine ⟨by simp [sql_query], by simp [sql_query], ?_, ?_⟩
  · simp [fetch_telemetry_data, freshStore, sql_query_faultyClient]
  · simp [fetch_telemetry_data, issuedQueries]

/-- Claim C9 counterexample: under the current FilterState value
daysBack = 7, a completed group fetch issues the dau_trend query with
daysBack 21 (min(7 * 3, 90)) and never with 7, while its sibling
top_apps is issued with 7 — the six member queries do not share the
FilterState's daysBack. -/
theorem c9_snapshot_counterexample :
    get_dau_trend 21 ∈
      (fetch_telemetry_data okClient (some Trigger.refresh_button)
        (some 7) "tab-apps-usage" true { kpi := none, charts := [] }).2 ∧
    get_dau_trend 7 ∉
      (fetch_telemetry_data okClient (some Trigger.refresh_button)
        (some 7) "tab-apps-usage" true { kpi := none, charts := [] }).2 ∧
    get_top_apps 7 10 ∈
      (fetch_telemetry_data okClient (some Trigger.refresh_button)
        (some 7) "tab-apps-usage" true { kpi := none, charts := [] }).2 := by
  refine ⟨by decide, by decide, by decide⟩

/-- Claim C9 (amended): a completed group fetch derives every member
query's daysBack from the single current FilterState value in one
atomic step and replaces the store wholesale, so no member reflects a
different filter generation; in dash_app_enhanced.py the dau_trend
member alone is widened to min(daysBack * 3, 90) while the KPI query
and the other five members receive daysBack unchanged, and in
dash_app.py all seven queries receive daysBack unchanged. -/
theorem c9_snapshot_amended (client : QueryClient) (d : Nat)
    (tab : String) (auto : Bool) (store : Store) :
    ((fetch_telemetry_data client (some Trigger.refresh_button) (some d)
        tab auto store).2.map QueryDef.daysBack) =
      [d, min (d * 3) 90, d, d, d, d, d] ∧
    (fetch_telemetry_data client (some Trigger.refresh_button) (some d)
        tab auto store).1 = freshStore client d ∧
    ((fetch_data client (some Trigger.refresh_button) d auto
        store).2.map QueryDef.daysBack) = List.replicate 7 d := by
  refine ⟨?_, ?_, ?_⟩
  · simp [fetch_telemetry_data, issuedQueries, get_kpi_summary,
      get_dau_trend, get_top_apps, get_usage_heatmap, get_user_cohorts,
      get_error_monitoring, get_user_segmentation]
  · simp [fetch_telemetry_data]
  · simp [fetch_data, get_kpi_summary, get_dau_trend, get_top_apps,
      get_usage_heatmap, get_user_cohorts, get_error_monitoring,
      get_user_segmentation, List.replicate]

/-- Claim C10: on every degenerate store value — None, the empty dict,
a dict missing the transform's chart key, or that key mapped to an
empty row list — each rendering transform returns its well-defined
placeholder (the empty figure, the No data available element, the
loading cards); being total Lean functions, they raise nothing. -/
theorem c10_degenerate_store_placeholders :
    (∀ s, degenerateFor "dau_trend" s →
      update_dau_chart s = ChartFig.emptyFigure) ∧
    (∀ s, degenerateFor "usage_heatmap" s →
      update_usage_heatmap s = HeatFig.emptyFigure) ∧
    (∀ s, degenerateFor "user_segmentation" s →
      update_user_segmentation_table s = SegTable.noDataAvailable) ∧
    (∀ k : Option Int, k = none →
      update_kpi_cards k = KpiCards.loadingCards) := by
  refine ⟨?_, ?_, ?_, ?_⟩
  · intro s hs
    rcases hs with rfl | rfl | ⟨m, rfl, hm | hm⟩ <;>
      simp [update_dau_chart, *]
  · intro s hs
    rcases hs with rfl | rfl | ⟨m, rfl, hm | hm⟩ <;>
      simp [update_usage_heatmap, *]
  · intro s hs
    rcases hs with rfl | rfl | ⟨m, rfl, hm | hm⟩ <;>
      simp [update_user_segmentation_table, *]
  · intro k hk
    simp [update_kpi_cards, hk]

/-- Claim C10 witness: instantiation at a None store, an empty-dict
store, a store missing the key, and a store mapping the key to an
empty row list. -/
theorem c10_degenerate_store_placeholders_witness :
    update_dau_chart none = ChartFig.emptyFigure ∧
    update_usage_heatmap (some []) = HeatFig.emptyFigure ∧
    update_user_segmentation_table (some [("other", [7])])
      = SegTable.noDataAvailable ∧
    update_user_segmentation_table (some [("user_segmentation", [])])
      = SegTable.noDataAvailable ∧
    update_kpi_cards none = KpiCards.loadingCards :=
  ⟨c10_degenerate_store_placeholders.1 none (Or.inl rfl),
   c10_degenerate_store_placeholders.2.1 (some []) (Or.inr (Or.inl rfl)),
   c10_degenerate_store_placeholders.2.2.1 (some [("other", [7])])
     (Or.inr (Or.inr ⟨[("other", [7])], rfl, Or.inl (by decide)⟩)),
   c10_degenerate_store_placeholders.2.2.1
     (some [("user_segmentation", [])])
     (Or.inr (Or.inr ⟨[("user_segmentation", [])], rfl,
       Or.inr (by decide)⟩)),
   c10_degenerate_store_placeholders.2.2.2 none rfl⟩

end Telemetry
